import Mathlib

/-!
Verification of the upload-orchestration subsystem of the `cfworker-upload`
repository: a shallow embedding of `src/youtube.js` (`formatAccessToken`,
`uploadToYouTube`), `src/bilibili.js` (`uploadToBilibili`) and the platform
router (`uploadToPlatform`), together with theorems settling the claims of
the natural-language specification.

Modelling conventions:
* JavaScript values that may be `undefined` are modelled as `Option _`
  (`none` = absent/`undefined`); explicit `null` object fields that the code
  only ever tests for truthiness are folded into `none` as well, except for
  JSON response values where `Json.null` is kept distinct.
* JavaScript truthiness of strings (`undefined`, `null` and `""` are falsy)
  is `jsTruthyStr`; truthiness of parsed-JSON values is `jsTruthy`.
* The network and the R2 object store are opaque collaborators: an `Env`
  record supplies the response each `fetch`/`bucket.get` would return, and
  the embedded pipeline records every call it performs in a `calls` trace.
* A `throw` is `Except.error` of a structured `JsError` carrying the values
  interpolated into the thrown message.
-/

/-- JavaScript truthiness for an optional string: `undefined`/absent and the
empty string are falsy. -/
def jsTruthyStr : Option String → Bool
  | none => false
  | some s => !(s == "")

/-- JavaScript `a || b` on optional strings: returns `a` when it is truthy,
otherwise `b`. -/
def jsOr (a b : Option String) : Option String :=
  if jsTruthyStr a then a else b

/-- JavaScript `a || d` where `d` is a (truthy) string literal default, as in
`metadata.privacyStatus || 'private'`. -/
def jsOrDefault (a : Option String) (d : String) : String :=
  match a with
  | none => d
  | some s => if s == "" then d else s

/-- Parsed JSON values, as returned by `response.json()`. -/
inductive Json where
  | null
  | bool (b : Bool)
  | num (n : Int)
  | str (s : String)
  | arr (elems : List Json)
  | obj (fields : List (String × Json))

/-- JavaScript property access `j.name`: defined for objects, `undefined`
(`none`) for every other value (matching property reads such as
`videoResult.id` on arbitrary parsed JSON). -/
def Json.getField : Json → String → Option Json
  | .obj fields, name => (fields.find? (fun p => p.1 == name)).map (fun p => p.2)
  | _, _ => none

/-- JavaScript truthiness of a possibly-`undefined` JSON value, as in
`if (!videoId)`. -/
def jsTruthy : Option Json → Bool
  | none => false
  | some .null => false
  | some (.bool b) => b
  | some (.num n) => !(n == 0)
  | some (.str s) => !(s == "")
  | some (.arr _) => true
  | some (.obj _) => true

/-- JavaScript `x[0]` for a value that is neither `undefined` nor `null`
(those two throw a TypeError and are handled at the call site). -/
def jsIndexZero : Json → Option Json
  | .arr elems => elems.head?
  | .obj fields => (fields.find? (fun p => p.1 == "0")).map (fun p => p.2)
  | .str s => (s.data.head?).map (fun c => Json.str (String.mk [c]))
  | _ => none

/-- JavaScript optional chaining `x?.name`: short-circuits to `undefined` on
`undefined` or `null`, otherwise reads the property. -/
def jsOptChain (x : Option Json) (name : String) : Option Json :=
  match x with
  | none => none
  | some .null => none
  | some j => j.getField name

mutual

/-- JavaScript string coercion of a JSON value (as in template literals such
as a URL containing the video id). -/
def jsToString : Json → String
  | .null => "null"
  | .bool b => cond b "true" "false"
  | .num n => toString n
  | .str s => s
  | .arr elems => jsToStringArr elems
  | .obj _ => "[object Object]"

/-- Array-to-string coercion: elements joined with commas, `null` elements
printing as the empty string. -/
def jsToStringArr : List Json → String
  | [] => ""
  | [Json.null] => ""
  | [j] => jsToString j
  | Json.null :: rest => "," ++ jsToStringArr rest
  | j :: rest => jsToString j ++ "," ++ jsToStringArr rest

end

/-- String coercion of a possibly-`undefined` value. -/
def jsToStringOpt : Option Json → String
  | none => "undefined"
  | some j => jsToString j

/-- JS `String.prototype.startsWith`, modelled at the character-list level. -/
def strStartsWith (s pre : String) : Bool :=
  pre.data.isPrefixOf s.data

/-- The strict comparison `x === 'private'` of a possibly-`undefined` JSON
value with the string literal `'private'` (true only for that exact string
value). -/
def isPrivateStr : Option Json → Bool
  | some (.str s) => s == "private"
  | _ => false

/-! ### Schedule-time normalization and validation (src/youtube.js lines 48-63) -/

/-- The test of the source regex over the schedule time: it matches when the
string contains a `Z` anywhere, or ends with a numeric utc offset of the shape
sign, two digits, colon, two digits. -/
def endsWithTzOffset (s : String) : Bool :=
  match s.data.reverse with
  | m2 :: m1 :: c :: h2 :: h1 :: sgn :: _ =>
    (sgn == '+' || sgn == '-') && h1.isDigit && h2.isDigit && (c == ':') &&
      m1.isDigit && m2.isDigit
  | _ => false

/-- The timezone-marker test the source applies to `publish_time` before
appending `Z`. -/
def hasTimezoneMarker (s : String) : Bool :=
  s.data.contains 'Z' || endsWithTzOffset s

/-- Timezone normalization of the schedule time: append `Z` when the regex
does not match. -/
def formatScheduleTime (s : String) : String :=
  if hasTimezoneMarker s then s else s ++ "Z"

/-- Numeric value of a digit string. -/
def natOfDigits (cs : List Char) : Nat :=
  cs.foldl (fun a c => a * 10 + (c.toNat - 48)) 0

/-- All characters are decimal digits. -/
def allDigits (cs : List Char) : Bool :=
  cs.all Char.isDigit

/-- A component of exactly two decimal digits. -/
def twoDigits (cs : List Char) : Bool :=
  cs.length == 2 && allDigits cs

/-- Splitting a character list on a separator character (structural stand-in
for `String.splitOn` with a one-character separator). -/
def splitOnChar (sep : Char) : List Char → List (List Char)
  | [] => [[]]
  | c :: rest =>
    let r := splitOnChar sep rest
    if c == sep then [] :: r
    else
      match r with
      | [] => [[c]]
      | g :: gs => (c :: g) :: gs

/-- Gregorian leap year. -/
def isLeapYear (y : Nat) : Bool :=
  y % 4 == 0 && (y % 100 != 0 || y % 400 == 0)

/-- Days in a month. -/
def daysInMonth (y m : Nat) : Nat :=
  if m == 2 then (if isLeapYear y then 29 else 28)
  else if m == 4 || m == 6 || m == 9 || m == 11 then 30
  else 31

/-- Date portion of the ECMAScript date-time string format:
`YYYY`, `YYYY-MM` or `YYYY-MM-DD` with in-range components. -/
def validDatePart (d : List Char) : Bool :=
  match splitOnChar '-' d with
  | [ys] => ys.length == 4 && allDigits ys
  | [ys, ms] =>
    ys.length == 4 && allDigits ys && twoDigits ms &&
      1 ≤ natOfDigits ms && natOfDigits ms ≤ 12
  | [ys, ms, ds] =>
    ys.length == 4 && allDigits ys && twoDigits ms &&
      1 ≤ natOfDigits ms && natOfDigits ms ≤ 12 && twoDigits ds &&
      1 ≤ natOfDigits ds && natOfDigits ds ≤ daysInMonth (natOfDigits ys) (natOfDigits ms)
  | _ => false

/-- Seconds component, optionally followed by a decimal fraction. -/
def validSecFrac (s : List Char) : Bool :=
  match splitOnChar '.' s with
  | [sec] => twoDigits sec && natOfDigits sec ≤ 59
  | [sec, frac] =>
    twoDigits sec && natOfDigits sec ≤ 59 && !(frac.isEmpty) && allDigits frac
  | _ => false

/-- The seconds component (with optional fraction) denotes exactly zero. -/
def secFracZero (s : List Char) : Bool :=
  match splitOnChar '.' s with
  | [sec] => natOfDigits sec == 0
  | [sec, frac] => natOfDigits sec == 0 && frac.all (fun c => c == '0')
  | _ => false

/-- Time-of-day core `HH:mm`, `HH:mm:ss` or `HH:mm:ss.sss`, allowing the
special midnight value `24:00[:00[.0…]]`. -/
def validTimeCore (t : List Char) : Bool :=
  match splitOnChar ':' t with
  | [h, m] =>
    twoDigits h && twoDigits m && natOfDigits m ≤ 59 &&
      (natOfDigits h ≤ 23 || (natOfDigits h == 24 && natOfDigits m == 0))
  | [h, m, s] =>
    twoDigits h && twoDigits m && natOfDigits m ≤ 59 && validSecFrac s &&
      (natOfDigits h ≤ 23 || (natOfDigits h == 24 && natOfDigits m == 0 && secFracZero s))
  | _ => false

/-- Time portion: the core optionally followed by `Z` or a numeric utc offset
with in-range hour and minute fields. -/
def validTimePart (t : List Char) : Bool :=
  match t.reverse with
  | 'Z' :: rest => validTimeCore rest.reverse
  | m2 :: m1 :: c :: h2 :: h1 :: sgn :: rest =>
    if (sgn == '+' || sgn == '-') && h1.isDigit && h2.isDigit && (c == ':') &&
        m1.isDigit && m2.isDigit then
      natOfDigits [h1, h2] ≤ 23 && natOfDigits [m1, m2] ≤ 59 &&
        validTimeCore rest.reverse
    else validTimeCore t
  | _ => validTimeCore t

/-- Models the success of `new Date(s).toISOString()` in the source: the
string must conform to the standardized ECMAScript date-time string format
(four-digit years) and denote a real calendar instant.  Strings outside that
format (where engines may fall back to implementation-defined parsing) are
treated as invalid. -/
def isValidDateString (s : String) : Bool :=
  match splitOnChar 'T' s.data with
  | [d] => validDatePart d
  | [d, t] => validDatePart d && validTimePart t
  | _ => false

/-! ### Data model -/

/-- Caller-supplied video metadata (`metadata` argument). -/
structure Metadata where
  title : Option String
  description : Option String
  tags : Option (List String)
  categoryId : Option String
  privacyStatus : Option String

/-- The `snippet` object built for `videos.insert`. -/
structure Snippet where
  title : Option String
  description : Option String
  tags : Option (List String)
  categoryId : Option String

/-- The `status` object built for `videos.insert`. -/
structure StatusBlock where
  privacyStatus : String
  publishAt : Option String

/-- The normalized `videoMetadata` object sent to the platform. -/
structure VideoMetadataNorm where
  snippet : Snippet
  status : StatusBlock

/-- The cover-path keys read from the request body
(`coverPath-high`, `coverPath-medium`, `coverPath-default`, legacy
`coverPath`); `none` models an absent or `null` key. -/
structure RequestBody where
  coverPathHigh : Option String
  coverPathMedium : Option String
  coverPathDefault : Option String
  coverPath : Option String

/-- A `fetch` response as the pipeline consumes it: status flag and code,
text body, parsed JSON body (the code calls `.json()` on bodies it assumes
parseable), response headers and raw body bytes. -/
structure FetchResponse where
  ok : Bool
  status : Nat
  statusText : String
  text : String
  json : Json
  headers : String → Option String
  bodyBytes : List Nat

/-- `httpMetadata` of an R2 object. -/
structure HttpMetadata where
  contentType : Option String

/-- An object returned by `env.VIDEO_BUCKET.get`. -/
structure R2Object where
  body : List Nat
  httpMetadata : Option HttpMetadata
  size : Nat

/-- The opaque collaborators of one orchestration run: the boundary's random
suffix, the responses the platform and the object store would return. -/
structure Env where
  boundarySuffix : String
  insertResponse : FetchResponse
  verifyResponse : FetchResponse
  coverFetchResponse : FetchResponse
  bucketGet : String → Option R2Object
  thumbSetResponse : FetchResponse

/-- The five preset thumbnail URLs returned with every successful result. -/
structure PresetThumbnails where
  default : String
  medium : String
  high : String
  standard : String
  maxres : String
  deriving DecidableEq

/-- The caught-and-converted thumbnail errors (`thumbError.message`). -/
inductive ThumbErr where
  | fetchCoverFailed (status : Nat) (statusText : String)
  | r2NotFound (path : String)
  deriving DecidableEq

/-- The values assigned to `thumbnailUploadStatus`, one constructor per
assignment site in the source. -/
inductive ThumbnailStatus where
  | attachFailed (status : Nat) (body : String)
  | succeeded (sourceUsed : String)
  | processError (e : ThumbErr)
  | notAttempted
  deriving DecidableEq

/-- The errors `uploadToYouTube`, `uploadToBilibili` and `uploadToPlatform`
can throw, carrying the values interpolated into each thrown message. -/
inductive JsError where
  | invalidPublishTime (original : String)
  | videoUploadError (status : Nat) (body : String)
  | missingVideoId (videoResult : Json)
  | verifyItemsTypeError
  | unsupportedPlatform (platform : String)
  | bilibiliNotImplemented

/-- A chunk enqueued on the multipart `ReadableStream`: either the utf-8
encoding of a string, or the raw video buffer. -/
inductive Chunk where
  | str (s : String)
  | bin (bytes : List Nat)

/-- The network/storage calls a run performs, in order. -/
inductive NetCall where
  | insertMedia (auth : String) (contentType : String) (body : List Chunk)
  | queryStatus (videoId : String) (auth : String)
  | fetchCover (url : String)
  | bucketGet (path : String)
  | setThumbnail (videoId : String) (auth : String) (contentType : String)
      (contentLength : Option String) (body : List Nat)

/-- Whether a call belongs to the thumbnail step. -/
def NetCall.isThumbnailCall : NetCall → Bool
  | .fetchCover _ => true
  | .bucketGet _ => true
  | .setThumbnail _ _ _ _ _ => true
  | _ => false

/-- The object returned on success: the spread insert response plus the
thumbnail status and the preset thumbnail URLs. -/
structure UploadResult where
  videoResult : Json
  thumbnailUploadStatus : ThumbnailStatus
  presetThumbnails : PresetThumbnails

/-- One orchestration run: the calls performed, whether the verification
`console.warn` fired (and with which observed value), and the outcome. -/
structure RunResult where
  calls : List NetCall
  verifyWarning : Option (Option Json)
  outcome : Except JsError UploadResult

/-! ### formatAccessToken (src/youtube.js lines 11-15) -/

/-- `formatAccessToken`: ensure the token carries the `Bearer ` header scheme
(the `operation` argument only feeds a log line and is dropped). -/
def formatAccessToken (accessToken : String) : String :=
  if strStartsWith accessToken "Bearer " then accessToken
  else "Bearer " ++ accessToken

/-- Removal of one leading `Bearer ` scheme tag, if present (specification
companion for `formatAccessToken`). -/
def stripBearerOnce (t : String) : String :=
  if strStartsWith t "Bearer " then t.drop 7 else t

/-! ### Metadata normalization (src/youtube.js lines 34-63) -/

/-- Construction and validation of the `videoMetadata` object: privacy is
forced to `private` when a (truthy) `publish_time` is supplied, otherwise the
caller value with a `private` default; a truthy `publish_time` is normalized
(appending `Z` when the timezone regex does not match) and must parse as a
valid instant, else the error carrying the original string is thrown. -/
def mkVideoMetadata (metadata : Metadata) (publish_time : Option String) :
    Except JsError VideoMetadataNorm :=
  let base : VideoMetadataNorm :=
    { snippet := { title := metadata.title, description := metadata.description,
                   tags := metadata.tags, categoryId := metadata.categoryId },
      status := { privacyStatus :=
                    if jsTruthyStr publish_time then "private"
                    else jsOrDefault metadata.privacyStatus "private",
                  publishAt := none } }
  match publish_time with
  | none => Except.ok base
  | some pt =>
    if pt == "" then Except.ok base
    else
      let formattedTime := formatScheduleTime pt
      if isValidDateString formattedTime then
        Except.ok { base with status := { base.status with publishAt := some formattedTime } }
      else
        Except.error (JsError.invalidPublishTime pt)

/-- Minimal JSON string escaping for `JSON.stringify`. -/
def jsonEscapeChar (c : Char) : String :=
  if c == '"' then "\\\""
  else if c == '\\' then "\\\\"
  else if c == '\n' then "\\n"
  else if c == '\r' then "\\r"
  else if c == '\t' then "\\t"
  else String.mk [c]

/-- JSON string escaping. -/
def jsonEscape (s : String) : String :=
  s.data.foldr (fun c acc => jsonEscapeChar c ++ acc) ""

/-- A quoted JSON string literal. -/
def jsonQuote (s : String) : String :=
  "\"" ++ jsonEscape s ++ "\""

/-- `JSON.stringify` of the `snippet` object (undefined fields omitted). -/
def stringifySnippet (sn : Snippet) : String :=
  let fields : List String :=
    (match sn.title with
     | some t => [jsonQuote "title" ++ ":" ++ jsonQuote t]
     | none => []) ++
    (match sn.description with
     | some d => [jsonQuote "description" ++ ":" ++ jsonQuote d]
     | none => []) ++
    (match sn.tags with
     | some ts => [jsonQuote "tags" ++ ":[" ++ String.intercalate "," (ts.map jsonQuote) ++ "]"]
     | none => []) ++
    (match sn.categoryId with
     | some c => [jsonQuote "categoryId" ++ ":" ++ jsonQuote c]
     | none => [])
  "\x7b" ++ String.intercalate "," fields ++ "\x7d"

/-- `JSON.stringify` of the `status` object. -/
def stringifyStatus (st : StatusBlock) : String :=
  let fields : List String :=
    [jsonQuote "privacyStatus" ++ ":" ++ jsonQuote st.privacyStatus] ++
    (match st.publishAt with
     | some p => [jsonQuote "publishAt" ++ ":" ++ jsonQuote p]
     | none => [])
  "\x7b" ++ String.intercalate "," fields ++ "\x7d"

/-- `JSON.stringify(videoMetadata)`. -/
def stringifyVideoMetadata (v : VideoMetadataNorm) : String :=
  "\x7b" ++ jsonQuote "snippet" ++ ":" ++ stringifySnippet v.snippet ++ "," ++
    jsonQuote "status" ++ ":" ++ stringifyStatus v.status ++ "\x7d"

/-! ### Multipart body construction (src/youtube.js lines 65-95) -/

/-- The chunk sequence enqueued on the multipart `ReadableStream`: metadata
part, media part header, the whole video buffer as one chunk, terminating
boundary marker. -/
def buildMultipartBody (boundary : String) (metadataJson : String)
    (videoArrayBuffer : List Nat) : List Chunk :=
  [ Chunk.str ("--" ++ boundary ++ "\r\n" ++
      "Content-Type: application/json; charset=UTF-8\r\n\r\n" ++
      metadataJson ++ "\r\n"),
    Chunk.str ("--" ++ boundary ++ "\r\n" ++ "Content-Type: video/mp4\r\n\r\n"),
    Chunk.bin videoArrayBuffer,
    Chunk.str ("\r\n--" ++ boundary ++ "--\r\n") ]

/-! ### Verification read (src/youtube.js lines 117-130) -/

/-- The read `verifyResult.items[0]?.status?.privacyStatus`: accessing
`items[0]` throws a TypeError when `items` is absent or `null`; the optional
chain after `[0]` cannot throw. -/
def readVerifyPrivacy (verifyResult : Json) : Except Unit (Option Json) :=
  match verifyResult.getField "items" with
  | none => Except.error ()
  | some Json.null => Except.error ()
  | some items =>
    Except.ok (jsOptChain (jsOptChain (jsIndexZero items) "status") "privacyStatus")

/-! ### Thumbnail step (src/youtube.js lines 132-207) -/

/-- JS `parseInt` on a header value: optional leading spaces and sign then
leading decimal digits; `none` models `NaN`. -/
def jsParseInt (s : String) : Option Int :=
  let core : List Char → Option Nat := fun cs =>
    let ds := cs.takeWhile Char.isDigit
    if ds.isEmpty then none else some (natOfDigits ds)
  match s.data.dropWhile (fun c => c == ' ') with
  | '-' :: rest => (core rest).map (fun n => -(n : Int))
  | '+' :: rest => (core rest).map (fun n => (n : Int))
  | cs => (core cs).map (fun n => (n : Int))

/-- The priority selection
`coverPathHigh || coverPathMedium || (coverPath-default || coverPath)`. -/
def selectedCoverPath (requestBody : RequestBody) : Option String :=
  jsOr (jsOr requestBody.coverPathHigh requestBody.coverPathMedium)
    (jsOr requestBody.coverPathDefault requestBody.coverPath)

/-- The preset thumbnail URLs derived from the video id alone. -/
def presetThumbnailsFor (videoId : String) : PresetThumbnails :=
  { default := "https://i.ytimg.com/vi/" ++ videoId ++ "/default.jpg",
    medium := "https://i.ytimg.com/vi/" ++ videoId ++ "/mqdefault.jpg",
    high := "https://i.ytimg.com/vi/" ++ videoId ++ "/hqdefault.jpg",
    standard := "https://i.ytimg.com/vi/" ++ videoId ++ "/sddefault.jpg",
    maxres := "https://i.ytimg.com/vi/" ++ videoId ++ "/maxresdefault.jpg" }

/-- The thumbnail resolution/fetch/attach step plus final result assembly:
candidate selection, URL-vs-R2 classification, the try/catch that converts
every failure into a `thumbnailUploadStatus` value, and the returned object. -/
def runThumbnailStage (env : Env) (formattedAccessToken : String)
    (requestBody : RequestBody) (videoId : String) (videoResult : Json)
    (calls : List NetCall) (verifyWarning : Option (Option Json)) : RunResult :=
  let finish : List NetCall → ThumbnailStatus → RunResult := fun cs st =>
    ⟨cs, verifyWarning, Except.ok ⟨videoResult, st, presetThumbnailsFor videoId⟩⟩
  match selectedCoverPath requestBody with
  | none => finish calls ThumbnailStatus.notAttempted
  | some path =>
    if path == "" then finish calls ThumbnailStatus.notAttempted
    else if strStartsWith path "http" then
      let fetchCall := NetCall.fetchCover path
      let resp := env.coverFetchResponse
      if resp.ok = false then
        finish (calls ++ [fetchCall])
          (ThumbnailStatus.processError (ThumbErr.fetchCoverFailed resp.status resp.statusText))
      else
        let thumbnailContentType := jsOrDefault (resp.headers "Content-Type") "image/jpeg"
        let contentLength := resp.headers "Content-Length"
        let thumbnailSize : Option Int :=
          if jsTruthyStr contentLength then jsParseInt (contentLength.getD "") else none
        let clHeader : Option String :=
          match thumbnailSize with
          | some n => if n == 0 then none else some (toString n)
          | none => none
        let setCall := NetCall.setThumbnail videoId formattedAccessToken
          thumbnailContentType clHeader resp.bodyBytes
        let setResp := env.thumbSetResponse
        if setResp.ok = false then
          finish (calls ++ [fetchCall, setCall])
            (ThumbnailStatus.attachFailed setResp.status setResp.text)
        else
          finish (calls ++ [fetchCall, setCall]) (ThumbnailStatus.succeeded path)
    else
      let getCall := NetCall.bucketGet path
      match env.bucketGet path with
      | none => finish (calls ++ [getCall])
          (ThumbnailStatus.processError (ThumbErr.r2NotFound path))
      | some obj =>
        let thumbnailContentType :=
          jsOrDefault (obj.httpMetadata.bind HttpMetadata.contentType) "image/jpeg"
        let clHeader : Option String :=
          if obj.size == 0 then none else some (toString obj.size)
        let setCall := NetCall.setThumbnail videoId formattedAccessToken
          thumbnailContentType clHeader obj.body
        let setResp := env.thumbSetResponse
        if setResp.ok = false then
          finish (calls ++ [getCall, setCall])
            (ThumbnailStatus.attachFailed setResp.status setResp.text)
        else
          finish (calls ++ [getCall, setCall]) (ThumbnailStatus.succeeded path)

/-! ### The full orchestration (src/youtube.js lines 27-222) -/

/-- `uploadToYouTube`: metadata normalization, multipart insert, videoId
extraction, status verification, thumbnail step, result assembly. -/
def uploadToYouTube (env : Env) (videoStream : List Nat) (metadata : Metadata)
    (accessToken : String) (requestBody : RequestBody)
    (publish_time : Option String) : RunResult :=
  let boundary := "----CloudflareWorkerBoundary" ++ env.boundarySuffix
  let formattedAccessToken := formatAccessToken accessToken
  match mkVideoMetadata metadata publish_time with
  | Except.error e => ⟨[], none, Except.error e⟩
  | Except.ok videoMetadata =>
    let metadataJson := stringifyVideoMetadata videoMetadata
    let videoArrayBuffer := videoStream
    let multipartBody := buildMultipartBody boundary metadataJson videoArrayBuffer
    let insertCall := NetCall.insertMedia formattedAccessToken
      ("multipart/related; boundary=" ++ boundary) multipartBody
    let resp := env.insertResponse
    if resp.ok = false then
      ⟨[insertCall], none, Except.error (JsError.videoUploadError resp.status resp.text)⟩
    else
      let videoResult := resp.json
      let videoIdOpt := Json.getField videoResult "id"
      if jsTruthy videoIdOpt = false then
        ⟨[insertCall], none, Except.error (JsError.missingVideoId videoResult)⟩
      else
        let videoId := jsToStringOpt videoIdOpt
        let verifyCall := NetCall.queryStatus videoId formattedAccessToken
        match readVerifyPrivacy env.verifyResponse.json with
        | Except.error _ =>
          ⟨[insertCall, verifyCall], none, Except.error JsError.verifyItemsTypeError⟩
        | Except.ok privacy =>
          let verifyWarning := if isPrivateStr privacy then none else some privacy
          runThumbnailStage env formattedAccessToken requestBody videoId videoResult
            [insertCall, verifyCall] verifyWarning

/-! ### Bilibili stub and the router (src/bilibili.js, src/unnamed/part_000) -/

/-- `uploadToBilibili`: always throws the not-implemented error. -/
def uploadToBilibili (videoStream : List Nat) (metadata : Metadata)
    (accessToken : String) : RunResult :=
  ⟨[], none, Except.error JsError.bilibiliNotImplemented⟩

/-- JS `platform.toLowerCase()` modelled character-wise (the dispatch targets
are plain ascii names). -/
def strToLower (s : String) : String :=
  String.mk (s.data.map Char.toLower)

/-- `uploadToPlatform`: case-insensitive dispatch on the platform name; the
`YT_channelId` argument only feeds a log line. -/
def uploadToPlatform (env : Env) (platform : String) (videoStream : List Nat)
    (metadata : Metadata) (accessToken : String) (requestBody : RequestBody)
    (publish_time : Option String) (ytChannelId : Option String) : RunResult :=
  if strToLower platform == "youtube" then
    uploadToYouTube env videoStream metadata accessToken requestBody publish_time
  else if strToLower platform == "bilibili" then
    uploadToBilibili videoStream metadata accessToken
  else
    ⟨[], none, Except.error (JsError.unsupportedPlatform platform)⟩

/-! ### Specification-side companions and failure predicates -/

/-- Specification companion for candidate selection: the first non-empty,
non-null candidate in the priority order high, medium, default, legacy
`coverPath`. -/
def specFirstCover (rb : RequestBody) : Option String :=
  ([rb.coverPathHigh, rb.coverPathMedium, rb.coverPathDefault, rb.coverPath].find?
      jsTruthyStr).join

/-- The environment makes the thumbnail step fail for the selected `path`:
remote fetch failure or missing stored object, or a non-2xx thumbnail-set
response. -/
def thumbStepErrors (env : Env) (path : String) : Bool :=
  if strStartsWith path "http" then
    !env.coverFetchResponse.ok || !env.thumbSetResponse.ok
  else
    (env.bucketGet path).isNone || !env.thumbSetResponse.ok

/-- The thumbnail outcome records a failure (`failed(reason)` in the spec). -/
def isFailedThumb : ThumbnailStatus → Bool
  | .attachFailed _ _ => true
  | .processError _ => true
  | _ => false

/-! ### Concrete fixtures used by witnesses and counterexamples -/

/-- A header table with no entries. -/
def hdrsNone : String → Option String := fun _ => none

/-- A successful insert response whose body exposes the id `vid123`. -/
def insertOkResp : FetchResponse :=
  ⟨true, 200, "OK", "", Json.obj [("id", Json.str "vid123"),
    ("kind", Json.str "youtube#video")], hdrsNone, []⟩

/-- A verification response reporting `private`. -/
def verifyPrivateResp : FetchResponse :=
  ⟨true, 200, "OK", "", Json.obj [("items", Json.arr [Json.obj [("status",
    Json.obj [("privacyStatus", Json.str "private")])]])], hdrsNone, []⟩

/-- A verification response reporting `public`. -/
def verifyPublicResp : FetchResponse :=
  ⟨true, 200, "OK", "", Json.obj [("items", Json.arr [Json.obj [("status",
    Json.obj [("privacyStatus", Json.str "public")])]])], hdrsNone, []⟩

/-- A verification response whose JSON body has no `items` field. -/
def verifyNoItemsResp : FetchResponse :=
  ⟨true, 200, "OK", "", Json.obj [("kind", Json.str "youtube#videoListResponse")],
    hdrsNone, []⟩

/-- A generic successful response. -/
def dummyResp : FetchResponse := ⟨true, 200, "OK", "", Json.null, hdrsNone, []⟩

/-- A failing (non-2xx) response. -/
def failResp : FetchResponse := ⟨false, 500, "Internal Server Error", "boom",
  Json.null, hdrsNone, []⟩

/-- Baseline environment: insert succeeds, verification reports `private`,
the object store is empty. -/
def env0 : Env := ⟨"abc", insertOkResp, verifyPrivateResp, dummyResp,
  fun _ => none, dummyResp⟩

/-- Environment whose verification reports `public`. -/
def envPub : Env := ⟨"abc", insertOkResp, verifyPublicResp, dummyResp,
  fun _ => none, dummyResp⟩

/-- Environment whose verification body lacks `items`. -/
def envNoItems : Env := ⟨"x", insertOkResp, verifyNoItemsResp, dummyResp,
  fun _ => none, dummyResp⟩

/-- Environment where the thumbnail-set call returns non-2xx and the store
holds the requested object. -/
def envThumbSetFails : Env := ⟨"abc", insertOkResp, verifyPrivateResp, dummyResp,
  fun _ => some ⟨[7, 7], some ⟨some "image/png"⟩, 2⟩, failResp⟩

/-- Minimal valid metadata, no privacy status supplied. -/
def md0 : Metadata := ⟨some "T", some "D", none, some "22", none⟩

/-- Metadata requesting `public` visibility. -/
def mdPub : Metadata := ⟨some "T", some "D", none, some "22", some "public"⟩

/-- The normalized form of `md0` without a schedule. -/
def vm0 : VideoMetadataNorm := ⟨⟨some "T", some "D", none, some "22"⟩,
  ⟨"private", none⟩⟩

/-- The normalized form of `mdPub` without a schedule. -/
def vmPub : VideoMetadataNorm := ⟨⟨some "T", some "D", none, some "22"⟩,
  ⟨"public", none⟩⟩

/-- The normalized form of `mdPub` with the schedule `2025-04-17T23:57:16`. -/
def vmSched : VideoMetadataNorm := ⟨⟨some "T", some "D", none, some "22"⟩,
  ⟨"private", some "2025-04-17T23:57:16Z"⟩⟩

/-- No thumbnail candidates. -/
def rb0 : RequestBody := ⟨none, none, none, none⟩

/-- Only a high-resolution candidate, stored in R2. -/
def rbHigh : RequestBody := ⟨some "covers/a.jpg", none, none, none⟩

/-! ### Helper lemmas about the thumbnail stage -/

/-- The thumbnail stage never touches the verification warning it is handed. -/
theorem runThumbnailStage_verifyWarning (env : Env) (auth : String) (rb : RequestBody)
    (vid : String) (vres : Json) (calls : List NetCall) (warn : Option (Option Json)) :
    (runThumbnailStage env auth rb vid vres calls warn).verifyWarning = warn := by
  unfold runThumbnailStage
  rcases selectedCoverPath rb with _ | path
  · rfl
  · rcases env.bucketGet path with _ | obj <;> simp only [] <;> repeat' split
    all_goals rfl

/-- The thumbnail stage always returns a success carrying the insert result
and the preset thumbnails, and converts every thumbnail-step error of the
environment into a failure status. -/
theorem runThumbnailStage_ok (env : Env) (auth : String) (rb : RequestBody)
    (vid : String) (vres : Json) (calls : List NetCall) (warn : Option (Option Json)) :
    ∃ r, (runThumbnailStage env auth rb vid vres calls warn).outcome = Except.ok r ∧
      r.videoResult = vres ∧ r.presetThumbnails = presetThumbnailsFor vid ∧
      (∀ path, selectedCoverPath rb = some path → path ≠ "" →
        thumbStepErrors env path = true → isFailedThumb r.thumbnailUploadStatus = true) := by
  rcases hsel : selectedCoverPath rb with _ | path
  · refine ⟨⟨vres, ThumbnailStatus.notAttempted, presetThumbnailsFor vid⟩, ?_, rfl, rfl,
      fun p hp => by simp [hsel] at hp⟩
    simp [runThumbnailStage, hsel]
  · by_cases hpe : path = ""
    · subst hpe
      refine ⟨⟨vres, ThumbnailStatus.notAttempted, presetThumbnailsFor vid⟩, ?_, rfl, rfl,
        fun p hp hne _ => ?_⟩
      · simp [runThumbnailStage, hsel]
      · cases hp; exact absurd rfl hne
    · by_cases hh : strStartsWith path "http" = true
      · by_cases hok : env.coverFetchResponse.ok = true
        · by_cases hset : env.thumbSetResponse.ok = true
          · refine ⟨⟨vres, ThumbnailStatus.succeeded path, presetThumbnailsFor vid⟩, ?_, rfl, rfl,
              fun p hp hne herr => ?_⟩
            · simp [runThumbnailStage, hsel, hpe, hh, hok, hset]
            · cases hp
              simp [thumbStepErrors, hh, hok, hset] at herr
          · rw [Bool.not_eq_true] at hset
            refine ⟨⟨vres, ThumbnailStatus.attachFailed env.thumbSetResponse.status
                env.thumbSetResponse.text, presetThumbnailsFor vid⟩, ?_, rfl, rfl,
              fun p hp hne herr => ?_⟩
            · simp [runThumbnailStage, hsel, hpe, hh, hok, hset]
            · rfl
        · rw [Bool.not_eq_true] at hok
          refine ⟨⟨vres, ThumbnailStatus.processError (ThumbErr.fetchCoverFailed
              env.coverFetchResponse.status env.coverFetchResponse.statusText),
              presetThumbnailsFor vid⟩, ?_, rfl, rfl, fun p hp hne herr => ?_⟩
          · simp [runThumbnailStage, hsel, hpe, hh, hok]
          · rfl
      · rcases hbg : env.bucketGet path with _ | obj
        · refine ⟨⟨vres, ThumbnailStatus.processError (ThumbErr.r2NotFound path),
              presetThumbnailsFor vid⟩, ?_, rfl, rfl, fun p hp hne herr => ?_⟩
          · simp [runThumbnailStage, hsel, hpe, hh, hbg]
          · rfl
        · by_cases hset : env.thumbSetResponse.ok = true
          · refine ⟨⟨vres, ThumbnailStatus.succeeded path, presetThumbnailsFor vid⟩, ?_, rfl, rfl,
              fun p hp hne herr => ?_⟩
            · simp [runThumbnailStage, hsel, hpe, hh, hbg, hset]
            · cases hp
              simp [thumbStepErrors, hh, hbg, hset] at herr
          · rw [Bool.not_eq_true] at hset
            refine ⟨⟨vres, ThumbnailStatus.attachFailed env.thumbSetResponse.status
                env.thumbSetResponse.text, presetThumbnailsFor vid⟩, ?_, rfl, rfl,
              fun p hp hne herr => ?_⟩
            · simp [runThumbnailStage, hsel, hpe, hh, hbg, hset]
            · rfl

/-- Without a usable candidate the thumbnail stage leaves the trace unchanged
and reports `notAttempted`. -/
theorem runThumbnailStage_notAttempted (env : Env) (auth : String) (rb : RequestBody)
    (vid : String) (vres : Json) (calls : List NetCall) (warn : Option (Option Json))
    (h : jsTruthyStr (selectedCoverPath rb) = false) :
    runThumbnailStage env auth rb vid vres calls warn =
      ⟨calls, warn, Except.ok ⟨vres, ThumbnailStatus.notAttempted, presetThumbnailsFor vid⟩⟩ := by
  rcases hsel : selectedCoverPath rb with _ | path
  · simp [runThumbnailStage, hsel]
  · rw [hsel] at h
    simp only [jsTruthyStr, Bool.not_eq_false', beq_iff_eq] at h
    subst h
    simp [runThumbnailStage, hsel]

/-- When the insert succeeds with a truthy id and the verification read does
not throw, the whole run reduces to the thumbnail stage, fed the two calls
already performed and the computed warning. -/
theorem uploadToYouTube_reaches_thumbStage (env : Env) (v : List Nat) (metadata : Metadata)
    (tok : String) (rb : RequestBody) (pt : Option String) (vm : VideoMetadataNorm)
    (p : Option Json)
    (h0 : mkVideoMetadata metadata pt = Except.ok vm)
    (h1 : env.insertResponse.ok = true)
    (h2 : jsTruthy (Json.getField env.insertResponse.json "id") = true)
    (h3 : readVerifyPrivacy env.verifyResponse.json = Except.ok p) :
    ∃ ct body,
      uploadToYouTube env v metadata tok rb pt =
        runThumbnailStage env (formatAccessToken tok) rb
          (jsToStringOpt (Json.getField env.insertResponse.json "id"))
          env.insertResponse.json
          [NetCall.insertMedia (formatAccessToken tok) ct body,
           NetCall.queryStatus (jsToStringOpt (Json.getField env.insertResponse.json "id"))
             (formatAccessToken tok)]
          (if isPrivateStr p then none else some p) := by
  refine ⟨"multipart/related; boundary=" ++ ("----CloudflareWorkerBoundary" ++ env.boundarySuffix),
    buildMultipartBody ("----CloudflareWorkerBoundary" ++ env.boundarySuffix)
      (stringifyVideoMetadata vm) v, ?_⟩
  unfold uploadToYouTube
  rw [h0]
  simp [h1, h2, h3]

/-- A truthy selection coincides with the first truthy candidate of the
priority list. -/
theorem selectedCoverPath_eq_specFirstCover (rb : RequestBody)
    (h : jsTruthyStr (selectedCoverPath rb) = true) :
    selectedCoverPath rb = specFirstCover rb := by
  rcases rb with ⟨a, b, c, d⟩
  unfold selectedCoverPath specFirstCover jsOr at *
  cases ha : jsTruthyStr a <;> cases hb : jsTruthyStr b <;>
    cases hc : jsTruthyStr c <;> cases hd : jsTruthyStr d <;>
    simp [ha, hb, hc, hd, List.find?] at h ⊢

/-- Prepending the scheme tag always yields a token that carries it. -/
theorem bearer_append_startsWith (t : String) :
    strStartsWith ("Bearer " ++ t) "Bearer " = true := by
  unfold strStartsWith
  rw [List.isPrefixOf_iff_prefix]
  rw [String.data_append]
  exact List.prefix_append _ _

/-- A token that carries the scheme tag decomposes as the tag plus its
remainder. -/
theorem bearer_decomp (t : String) (h : strStartsWith t "Bearer " = true) :
    "Bearer " ++ t.drop 7 = t := by
  unfold strStartsWith at h
  rw [List.isPrefixOf_iff_prefix] at h
  rcases List.prefix_iff_eq_append.mp h with heq
  apply String.ext
  rw [String.data_append, String.data_drop]
  calc "Bearer ".data ++ t.data.drop 7
      = "Bearer ".data ++ List.drop "Bearer ".data.length t.data := rfl
    _ = t.data := heq

/-! ### Claim theorems -/

/-- Claim C1: for every upload where the media insert has succeeded and
yielded a media id (and the verification read does not itself throw), any
error in the thumbnail step — candidate absent from storage, remote fetch
failure, non-2xx thumbnail-set response — is caught inside the thumbnail step
and converted into a failed thumbnail status; the run still returns a success
outcome carrying the insert result (hence its media id), and no thumbnail
error propagates to the caller. -/
theorem uploadToYouTube_thumbnail_error_isolated (env : Env) (v : List Nat)
    (metadata : Metadata) (tok : String) (rb : RequestBody) (pt : Option String)
    (vm : VideoMetadataNorm) (p : Option Json)
    (h0 : mkVideoMetadata metadata pt = Except.ok vm)
    (h1 : env.insertResponse.ok = true)
    (h2 : jsTruthy (Json.getField env.insertResponse.json "id") = true)
    (h3 : readVerifyPrivacy env.verifyResponse.json = Except.ok p) :
    ∃ r, (uploadToYouTube env v metadata tok rb pt).outcome = Except.ok r ∧
      r.videoResult = env.insertResponse.json ∧
      (∀ path, selectedCoverPath rb = some path → path ≠ "" →
        thumbStepErrors env path = true → isFailedThumb r.thumbnailUploadStatus = true) := by
  obtain ⟨ct, body, heq⟩ :=
    uploadToYouTube_reaches_thumbStage env v metadata tok rb pt vm p h0 h1 h2 h3
  rw [heq]
  obtain ⟨r, hout, hv, hpre, hfail⟩ := runThumbnailStage_ok env (formatAccessToken tok) rb
    (jsToStringOpt (Json.getField env.insertResponse.json "id")) env.insertResponse.json
    [NetCall.insertMedia (formatAccessToken tok) ct body,
     NetCall.queryStatus (jsToStringOpt (Json.getField env.insertResponse.json "id"))
       (formatAccessToken tok)]
    (if isPrivateStr p then none else some p)
  exact ⟨r, hout, hv, hfail⟩

/-- Witness for claim C1: a concrete run in which the stored thumbnail exists
but the thumbnail-set call returns non-2xx; the hypotheses hold and the run
still succeeds with a failed thumbnail status. -/
theorem uploadToYouTube_thumbnail_error_isolated_witness :
    mkVideoMetadata md0 none = Except.ok vm0 ∧
    envThumbSetFails.insertResponse.ok = true ∧
    jsTruthy (Json.getField envThumbSetFails.insertResponse.json "id") = true ∧
    readVerifyPrivacy envThumbSetFails.verifyResponse.json =
      Except.ok (some (Json.str "private")) ∧
    (∃ r, (uploadToYouTube envThumbSetFails [] md0 "tok" rbHigh none).outcome = Except.ok r ∧
      r.videoResult = envThumbSetFails.insertResponse.json ∧
      (∀ path, selectedCoverPath rbHigh = some path → path ≠ "" →
        thumbStepErrors envThumbSetFails path = true →
        isFailedThumb r.thumbnailUploadStatus = true)) :=
  ⟨rfl, rfl, rfl, rfl,
   uploadToYouTube_thumbnail_error_isolated envThumbSetFails [] md0 "tok" rbHigh none vm0
     (some (Json.str "private")) rfl rfl rfl rfl⟩

/-- Claim C2 (amended): for every normalization that succeeds, `publishAt` is
set iff a non-empty schedule time was provided (the empty string is treated
as absent); when set, the privacy status is forced to `private` and
`publishAt` is the timezone-normalized string; otherwise the privacy status
is the caller value, defaulting to `private` when absent or empty. -/
theorem mkVideoMetadata_status_normalization (metadata : Metadata) (pt : Option String)
    (vm : VideoMetadataNorm) (h : mkVideoMetadata metadata pt = Except.ok vm) :
    (vm.status.publishAt.isSome ↔ jsTruthyStr pt = true) ∧
    (jsTruthyStr pt = true → vm.status.privacyStatus = "private") ∧
    (jsTruthyStr pt = false →
      vm.status.privacyStatus = jsOrDefault metadata.privacyStatus "private") ∧
    (∀ s, pt = some s → s ≠ "" → vm.status.publishAt = some (formatScheduleTime s)) := by
  unfold mkVideoMetadata at h
  rcases pt with _ | s
  · simp only [Except.ok.injEq] at h
    subst h
    simp [jsTruthyStr]
  · by_cases hse : s = ""
    · subst hse
      simp only [Except.ok.injEq, beq_self_eq_true, if_true] at h
      subst h
      simp [jsTruthyStr]
    · by_cases hv : isValidDateString (formatScheduleTime s) = true
      · simp only [hse, hv, beq_iff_eq, if_false, if_true, Except.ok.injEq] at h
        subst h
        simp [jsTruthyStr, hse]
      · rw [Bool.not_eq_true] at hv
        simp only [hse, hv, beq_iff_eq, if_false, Bool.false_eq_true] at h
        exact absurd h (by simp)

/-- Witness for claim C2: a schedule without timezone information is
normalized with `Z` and forces `private` over the caller-supplied `public`. -/
theorem mkVideoMetadata_status_normalization_witness :
    mkVideoMetadata mdPub (some "2025-04-17T23:57:16") = Except.ok vmSched ∧
    ((vmSched.status.publishAt.isSome ↔ jsTruthyStr (some "2025-04-17T23:57:16") = true) ∧
     (jsTruthyStr (some "2025-04-17T23:57:16") = true →
        vmSched.status.privacyStatus = "private") ∧
     (jsTruthyStr (some "2025-04-17T23:57:16") = false →
        vmSched.status.privacyStatus = jsOrDefault mdPub.privacyStatus "private") ∧
     (∀ s, (some "2025-04-17T23:57:16" : Option String) = some s → s ≠ "" →
        vmSched.status.publishAt = some (formatScheduleTime s))) :=
  ⟨rfl, mkVideoMetadata_status_normalization mdPub (some "2025-04-17T23:57:16") vmSched rfl⟩

/-- Counterexample for claim C2 as stated: the schedule time `""` is provided
(`isSome`), yet the normalized status block has no `publishAt` and keeps the
caller-supplied `public` instead of being forced to `private`. -/
theorem mkVideoMetadata_empty_schedule_counterexample :
    (some "" : Option String).isSome = true ∧
    mkVideoMetadata mdPub (some "") = Except.ok vmPub ∧
    vmPub.status.publishAt = none ∧
    vmPub.status.privacyStatus = "public" :=
  ⟨rfl, rfl, rfl, rfl⟩

/-- Claim C3 (amended): after a successful insert with a truthy id, the
pipeline re-queries the platform and compares the reported privacy value
against the constant string `private` (not against the effective status the
normalizer computed); for every verification response whose body allows the
`items[0]` read, a mismatch only records a warning and the run still returns
a success outcome. -/
theorem uploadToYouTube_verify_warning_nonfatal (env : Env) (v : List Nat)
    (metadata : Metadata) (tok : String) (rb : RequestBody) (pt : Option String)
    (vm : VideoMetadataNorm) (p : Option Json)
    (h0 : mkVideoMetadata metadata pt = Except.ok vm)
    (h1 : env.insertResponse.ok = true)
    (h2 : jsTruthy (Json.getField env.insertResponse.json "id") = true)
    (h3 : readVerifyPrivacy env.verifyResponse.json = Except.ok p) :
    (uploadToYouTube env v metadata tok rb pt).verifyWarning =
      (if isPrivateStr p then none else some p) ∧
    ∃ r, (uploadToYouTube env v metadata tok rb pt).outcome = Except.ok r := by
  obtain ⟨ct, body, heq⟩ :=
    uploadToYouTube_reaches_thumbStage env v metadata tok rb pt vm p h0 h1 h2 h3
  rw [heq]
  refine ⟨runThumbnailStage_verifyWarning _ _ _ _ _ _ _, ?_⟩
  obtain ⟨r, hout, -, -, -⟩ := runThumbnailStage_ok env (formatAccessToken tok) rb
    (jsToStringOpt (Json.getField env.insertResponse.json "id")) env.insertResponse.json
    [NetCall.insertMedia (formatAccessToken tok) ct body,
     NetCall.queryStatus (jsToStringOpt (Json.getField env.insertResponse.json "id"))
       (formatAccessToken tok)]
    (if isPrivateStr p then none else some p)
  exact ⟨r, hout⟩

/-- Witness for claim C3: a verification response reporting `public` records
a warning while the run still succeeds. -/
theorem uploadToYouTube_verify_warning_nonfatal_witness :
    mkVideoMetadata mdPub none = Except.ok vmPub ∧
    envPub.insertResponse.ok = true ∧
    jsTruthy (Json.getField envPub.insertResponse.json "id") = true ∧
    readVerifyPrivacy envPub.verifyResponse.json = Except.ok (some (Json.str "public")) ∧
    ((uploadToYouTube envPub [] mdPub "tok" rb0 none).verifyWarning =
      (if isPrivateStr (some (Json.str "public")) then none
       else some (some (Json.str "public"))) ∧
     ∃ r, (uploadToYouTube envPub [] mdPub "tok" rb0 none).outcome = Except.ok r) :=
  ⟨rfl, rfl, rfl, rfl,
   uploadToYouTube_verify_warning_nonfatal envPub [] mdPub "tok" rb0 none vmPub
     (some (Json.str "public")) rfl rfl rfl rfl⟩

/-- Counterexample for claim C3 as stated: the caller requests `public`, no
schedule is given, so the expected effective privacy status is `public`; the
platform reports exactly `public`, yet the code records a warning — the
comparison is against the constant `private`, not the expected value. -/
theorem uploadToYouTube_warns_on_matching_status :
    mkVideoMetadata mdPub none = Except.ok vmPub ∧
    vmPub.status.privacyStatus = "public" ∧
    readVerifyPrivacy envPub.verifyResponse.json = Except.ok (some (Json.str "public")) ∧
    (uploadToYouTube envPub [] mdPub "tok" rb0 none).verifyWarning =
      some (some (Json.str "public")) ∧
    (∃ r, (uploadToYouTube envPub [] mdPub "tok" rb0 none).outcome = Except.ok r) :=
  ⟨rfl, rfl, rfl, rfl, ⟨⟨envPub.insertResponse.json, ThumbnailStatus.notAttempted,
    presetThumbnailsFor "vid123"⟩, rfl⟩⟩

/-- Claim C4: a truthy cover selection is always the first non-empty,
non-null candidate in the order high, medium, default (with the legacy
`coverPath` key standing in for the default); and when no candidate is
usable, the run reports `notAttempted`, performs no thumbnail call at all,
and still succeeds. -/
theorem uploadToYouTube_thumbnail_candidate_priority (env : Env) (v : List Nat)
    (metadata : Metadata) (tok : String) (rb : RequestBody) (pt : Option String)
    (vm : VideoMetadataNorm) (p : Option Json)
    (h0 : mkVideoMetadata metadata pt = Except.ok vm)
    (h1 : env.insertResponse.ok = true)
    (h2 : jsTruthy (Json.getField env.insertResponse.json "id") = true)
    (h3 : readVerifyPrivacy env.verifyResponse.json = Except.ok p)
    (hfalsy : jsTruthyStr (selectedCoverPath rb) = false) :
    (∀ rb2 : RequestBody, jsTruthyStr (selectedCoverPath rb2) = true →
      selectedCoverPath rb2 = specFirstCover rb2) ∧
    (∃ r, (uploadToYouTube env v metadata tok rb pt).outcome = Except.ok r ∧
      r.thumbnailUploadStatus = ThumbnailStatus.notAttempted) ∧
    (∀ c ∈ (uploadToYouTube env v metadata tok rb pt).calls, c.isThumbnailCall = false) := by
  obtain ⟨ct, body, heq⟩ :=
    uploadToYouTube_reaches_thumbStage env v metadata tok rb pt vm p h0 h1 h2 h3
  rw [heq, runThumbnailStage_notAttempted _ _ _ _ _ _ _ hfalsy]
  refine ⟨selectedCoverPath_eq_specFirstCover, ⟨_, rfl, rfl⟩, ?_⟩
  intro c hc
  simp only [List.mem_cons, List.not_mem_nil, or_false] at hc
  rcases hc with rfl | rfl <;> rfl

/-- Witness for claim C4: with no candidates at all the run succeeds with
`notAttempted` and its trace has no thumbnail call. -/
theorem uploadToYouTube_thumbnail_candidate_priority_witness :
    mkVideoMetadata md0 none = Except.ok vm0 ∧
    env0.insertResponse.ok = true ∧
    jsTruthy (Json.getField env0.insertResponse.json "id") = true ∧
    readVerifyPrivacy env0.verifyResponse.json = Except.ok (some (Json.str "private")) ∧
    jsTruthyStr (selectedCoverPath rb0) = false ∧
    ((∀ rb2 : RequestBody, jsTruthyStr (selectedCoverPath rb2) = true →
        selectedCoverPath rb2 = specFirstCover rb2) ∧
     (∃ r, (uploadToYouTube env0 [] md0 "tok" rb0 none).outcome = Except.ok r ∧
        r.thumbnailUploadStatus = ThumbnailStatus.notAttempted) ∧
     (∀ c ∈ (uploadToYouTube env0 [] md0 "tok" rb0 none).calls,
        c.isThumbnailCall = false)) :=
  ⟨rfl, rfl, rfl, rfl, rfl,
   uploadToYouTube_thumbnail_candidate_priority env0 [] md0 "tok" rb0 none vm0
     (some (Json.str "private")) rfl rfl rfl rfl rfl⟩

/-- Claim C5 (amended): for every provided non-empty schedule-time string, a
`Z` is appended exactly when the string contains no `Z` character and does
not end with a numeric offset; the normalized string is accepted iff it
parses as a valid instant, in which case it becomes `publishAt`; on an
invalid string the error carrying the original caller-supplied string is
raised with no network call performed.  (The empty string bypasses
validation entirely; see the counterexample.) -/
theorem schedule_time_validation (env : Env) (v : List Nat) (metadata : Metadata)
    (tok : String) (rb : RequestBody) (pt : String) (hne : pt ≠ "") :
    (hasTimezoneMarker pt = false → formatScheduleTime pt = pt ++ "Z") ∧
    (hasTimezoneMarker pt = true → formatScheduleTime pt = pt) ∧
    (isValidDateString (formatScheduleTime pt) = true →
      ∃ vm, mkVideoMetadata metadata (some pt) = Except.ok vm ∧
        vm.status.publishAt = some (formatScheduleTime pt)) ∧
    (isValidDateString (formatScheduleTime pt) = false →
      mkVideoMetadata metadata (some pt) = Except.error (JsError.invalidPublishTime pt) ∧
      uploadToYouTube env v metadata tok rb (some pt) =
        ⟨[], none, Except.error (JsError.invalidPublishTime pt)⟩) := by
  refine ⟨?_, ?_, ?_, ?_⟩
  · intro h
    simp [formatScheduleTime, h]
  · intro h
    simp [formatScheduleTime, h]
  · intro hv
    refine ⟨⟨⟨metadata.title, metadata.description, metadata.tags, metadata.categoryId⟩,
      ⟨"private", some (formatScheduleTime pt)⟩⟩, ?_, rfl⟩
    unfold mkVideoMetadata
    simp [hne, hv, jsTruthyStr]
  · intro hv
    have hm : mkVideoMetadata metadata (some pt) =
        Except.error (JsError.invalidPublishTime pt) := by
      unfold mkVideoMetadata
      simp [hne, hv]
    refine ⟨hm, ?_⟩
    unfold uploadToYouTube
    rw [hm]

/-- Witness for claim C5: the malformed schedule `not-a-date` is rejected
with the original string in the error and an empty call trace. -/
theorem schedule_time_validation_witness :
    ("not-a-date" : String) ≠ "" ∧
    ((hasTimezoneMarker "not-a-date" = false →
        formatScheduleTime "not-a-date" = "not-a-date" ++ "Z") ∧
     (hasTimezoneMarker "not-a-date" = true →
        formatScheduleTime "not-a-date" = "not-a-date") ∧
     (isValidDateString (formatScheduleTime "not-a-date") = true →
        ∃ vm, mkVideoMetadata md0 (some "not-a-date") = Except.ok vm ∧
          vm.status.publishAt = some (formatScheduleTime "not-a-date")) ∧
     (isValidDateString (formatScheduleTime "not-a-date") = false →
        mkVideoMetadata md0 (some "not-a-date") =
          Except.error (JsError.invalidPublishTime "not-a-date") ∧
        uploadToYouTube env0 [] md0 "tok" rb0 (some "not-a-date") =
          ⟨[], none, Except.error (JsError.invalidPublishTime "not-a-date")⟩)) :=
  ⟨by decide,
   schedule_time_validation env0 [] md0 "tok" rb0 "not-a-date" (by decide)⟩

/-- Counterexample for claim C5 as stated: the provided schedule string `""`
does not parse as a valid instant, yet no error is raised — the run proceeds
to the network (two calls) and succeeds without a `publishAt`. -/
theorem empty_schedule_time_skips_validation :
    isValidDateString (formatScheduleTime "") = false ∧
    (uploadToYouTube env0 [] md0 "tok" rb0 (some "")).outcome =
      Except.ok ⟨insertOkResp.json, ThumbnailStatus.notAttempted,
        presetThumbnailsFor "vid123"⟩ ∧
    (uploadToYouTube env0 [] md0 "tok" rb0 (some "")).calls.length = 2 :=
  ⟨rfl, rfl, rfl⟩

/-- Claim C6: the multipart body is exactly the boundary-delimited JSON
metadata part, then the boundary-delimited media part (header followed by the
payload), then the terminating boundary marker, in that order; and the media
payload appears as one single chunk holding the whole buffer. -/
theorem buildMultipartBody_structure (boundary metadataJson : String) (video : List Nat) :
    buildMultipartBody boundary metadataJson video =
      [ Chunk.str ("--" ++ boundary ++ "\r\n" ++
          "Content-Type: application/json; charset=UTF-8\r\n\r\n" ++
          metadataJson ++ "\r\n"),
        Chunk.str ("--" ++ boundary ++ "\r\n" ++ "Content-Type: video/mp4\r\n\r\n"),
        Chunk.bin video,
        Chunk.str ("\r\n--" ++ boundary ++ "--\r\n") ] ∧
    (buildMultipartBody boundary metadataJson video).filterMap
      (fun c => match c with | Chunk.bin b => some b | _ => none) = [video] :=
  ⟨rfl, rfl⟩

/-- Claim C7: the router dispatches case-insensitively; every name that is
not a known platform fails with the unsupported-platform error naming it and
performs zero calls; the bilibili pipeline always fails with the same
not-implemented error (shown both directly and through the router); and a
name lowercasing to `youtube` routes to the YouTube pipeline. -/
theorem uploadToPlatform_dispatch :
    (∀ (env : Env) (platform : String) (v : List Nat) (m : Metadata) (tok : String)
        (rb : RequestBody) (pt : Option String) (ch : Option String),
      strToLower platform ≠ "youtube" → strToLower platform ≠ "bilibili" →
      uploadToPlatform env platform v m tok rb pt ch =
        ⟨[], none, Except.error (JsError.unsupportedPlatform platform)⟩) ∧
    (∀ (v : List Nat) (m : Metadata) (tok : String),
      uploadToBilibili v m tok = ⟨[], none, Except.error JsError.bilibiliNotImplemented⟩) ∧
    (∀ (env : Env) (v : List Nat) (m : Metadata) (tok : String) (rb : RequestBody)
        (pt : Option String) (ch : Option String),
      uploadToPlatform env "BiliBili" v m tok rb pt ch =
        ⟨[], none, Except.error JsError.bilibiliNotImplemented⟩) ∧
    (∀ (env : Env) (platform : String) (v : List Nat) (m : Metadata) (tok : String)
        (rb : RequestBody) (pt : Option String) (ch : Option String),
      strToLower platform = "youtube" →
      uploadToPlatform env platform v m tok rb pt ch =
        uploadToYouTube env v m tok rb pt) := by
  refine ⟨?_, fun _ _ _ => rfl, fun _ _ _ _ _ _ _ => rfl, ?_⟩
  · intro env platform v m tok rb pt ch h1 h2
    unfold uploadToPlatform
    simp [h1, h2]
  · intro env platform v m tok rb pt ch h
    unfold uploadToPlatform
    simp [h]

/-- Witness for claim C7: the unknown platform `vimeo` fails with zero calls,
and the mixed-case `YouTube` reaches the YouTube pipeline. -/
theorem uploadToPlatform_dispatch_witness :
    strToLower "vimeo" ≠ "youtube" ∧
    strToLower "vimeo" ≠ "bilibili" ∧
    uploadToPlatform env0 "vimeo" [] md0 "tok" rb0 none none =
      ⟨[], none, Except.error (JsError.unsupportedPlatform "vimeo")⟩ ∧
    strToLower "YouTube" = "youtube" ∧
    uploadToPlatform env0 "YouTube" [] md0 "tok" rb0 none none =
      uploadToYouTube env0 [] md0 "tok" rb0 none :=
  ⟨by decide, by decide,
   uploadToPlatform_dispatch.1 env0 "vimeo" [] md0 "tok" rb0 none none
     (by decide) (by decide),
   rfl,
   uploadToPlatform_dispatch.2.2.2 env0 "YouTube" [] md0 "tok" rb0 none none rfl⟩

/-- Claim C8: for every successful upload, whatever the thumbnail outcome,
the result carries the preset thumbnails computed purely from the media id by
`presetThumbnailsFor`, and each of the five resolution-keyed URLs contains
the media id. -/
theorem uploadToYouTube_preset_thumbnails (env : Env) (v : List Nat)
    (metadata : Metadata) (tok : String) (rb : RequestBody) (pt : Option String)
    (vm : VideoMetadataNorm) (p : Option Json)
    (h0 : mkVideoMetadata metadata pt = Except.ok vm)
    (h1 : env.insertResponse.ok = true)
    (h2 : jsTruthy (Json.getField env.insertResponse.json "id") = true)
    (h3 : readVerifyPrivacy env.verifyResponse.json = Except.ok p) :
    ∃ r, (uploadToYouTube env v metadata tok rb pt).outcome = Except.ok r ∧
      r.presetThumbnails =
        presetThumbnailsFor (jsToStringOpt (Json.getField env.insertResponse.json "id")) ∧
      r.presetThumbnails.default = "https://i.ytimg.com/vi/" ++
        jsToStringOpt (Json.getField env.insertResponse.json "id") ++ "/default.jpg" ∧
      r.presetThumbnails.medium = "https://i.ytimg.com/vi/" ++
        jsToStringOpt (Json.getField env.insertResponse.json "id") ++ "/mqdefault.jpg" ∧
      r.presetThumbnails.high = "https://i.ytimg.com/vi/" ++
        jsToStringOpt (Json.getField env.insertResponse.json "id") ++ "/hqdefault.jpg" ∧
      r.presetThumbnails.standard = "https://i.ytimg.com/vi/" ++
        jsToStringOpt (Json.getField env.insertResponse.json "id") ++ "/sddefault.jpg" ∧
      r.presetThumbnails.maxres = "https://i.ytimg.com/vi/" ++
        jsToStringOpt (Json.getField env.insertResponse.json "id") ++ "/maxresdefault.jpg" := by
  obtain ⟨ct, body, heq⟩ :=
    uploadToYouTube_reaches_thumbStage env v metadata tok rb pt vm p h0 h1 h2 h3
  rw [heq]
  obtain ⟨r, hout, hv, hpre, -⟩ := runThumbnailStage_ok env (formatAccessToken tok) rb
    (jsToStringOpt (Json.getField env.insertResponse.json "id")) env.insertResponse.json
    [NetCall.insertMedia (formatAccessToken tok) ct body,
     NetCall.queryStatus (jsToStringOpt (Json.getField env.insertResponse.json "id"))
       (formatAccessToken tok)]
    (if isPrivateStr p then none else some p)
  refine ⟨r, hout, hpre, ?_, ?_, ?_, ?_, ?_⟩ <;> rw [hpre] <;> rfl

/-- Witness for claim C8: even with a failing thumbnail-set call, the result
carries the five preset URLs derived from the id `vid123`. -/
theorem uploadToYouTube_preset_thumbnails_witness :
    mkVideoMetadata md0 none = Except.ok vm0 ∧
    envThumbSetFails.insertResponse.ok = true ∧
    jsTruthy (Json.getField envThumbSetFails.insertResponse.json "id") = true ∧
    readVerifyPrivacy envThumbSetFails.verifyResponse.json =
      Except.ok (some (Json.str "private")) ∧
    (∃ r, (uploadToYouTube envThumbSetFails [] md0 "tok" rbHigh none).outcome = Except.ok r ∧
      r.presetThumbnails = presetThumbnailsFor
        (jsToStringOpt (Json.getField envThumbSetFails.insertResponse.json "id")) ∧
      r.presetThumbnails.default = "https://i.ytimg.com/vi/" ++
        jsToStringOpt (Json.getField envThumbSetFails.insertResponse.json "id") ++
        "/default.jpg" ∧
      r.presetThumbnails.medium = "https://i.ytimg.com/vi/" ++
        jsToStringOpt (Json.getField envThumbSetFails.insertResponse.json "id") ++
        "/mqdefault.jpg" ∧
      r.presetThumbnails.high = "https://i.ytimg.com/vi/" ++
        jsToStringOpt (Json.getField envThumbSetFails.insertResponse.json "id") ++
        "/hqdefault.jpg" ∧
      r.presetThumbnails.standard = "https://i.ytimg.com/vi/" ++
        jsToStringOpt (Json.getField envThumbSetFails.insertResponse.json "id") ++
        "/sddefault.jpg" ∧
      r.presetThumbnails.maxres = "https://i.ytimg.com/vi/" ++
        jsToStringOpt (Json.getField envThumbSetFails.insertResponse.json "id") ++
        "/maxresdefault.jpg") :=
  ⟨rfl, rfl, rfl, rfl,
   uploadToYouTube_preset_thumbnails envThumbSetFails [] md0 "tok" rbHigh none vm0
     (some (Json.str "private")) rfl rfl rfl rfl⟩

/-- Claim C9: the Authorization credential always carries the `Bearer `
scheme exactly once — the token is returned unchanged when it already starts
with the scheme and prefixed once otherwise (equivalently, the result is the
scheme plus the scheme-stripped token, and the normalization is idempotent);
in particular `abc123` and `Bearer abc123` both format to `Bearer abc123`. -/
theorem formatAccessToken_bearer_once :
    (∀ t, formatAccessToken t = "Bearer " ++ stripBearerOnce t) ∧
    (∀ t, formatAccessToken (formatAccessToken t) = formatAccessToken t) ∧
    formatAccessToken "abc123" = "Bearer abc123" ∧
    formatAccessToken "Bearer abc123" = "Bearer abc123" := by
  refine ⟨?_, ?_, rfl, rfl⟩
  · intro t
    unfold formatAccessToken stripBearerOnce
    by_cases h : strStartsWith t "Bearer " = true
    · simp only [h, if_true]
      exact (bearer_decomp t h).symm
    · rw [Bool.not_eq_true] at h
      simp [h]
  · intro t
    unfold formatAccessToken
    by_cases h : strStartsWith t "Bearer " = true
    · simp [h]
    · rw [Bool.not_eq_true] at h
      simp [h, bearer_append_startsWith t]

/-- Claim C10: a concrete successful insert (ok response with id `vid123`)
whose verification body parses to JSON without an `items` array makes the
whole orchestration fail with the TypeError raised while reading the privacy
status — the verification step is not always non-fatal. -/
theorem uploadToYouTube_missing_items_fatal :
    envNoItems.insertResponse.ok = true ∧
    jsTruthy (Json.getField envNoItems.insertResponse.json "id") = true ∧
    readVerifyPrivacy envNoItems.verifyResponse.json = Except.error () ∧
    (uploadToYouTube envNoItems [] md0 "tok" rb0 none).outcome =
      Except.error JsError.verifyItemsTypeError :=
  ⟨rfl, rfl, rfl, rfl⟩
